import Mathlib

/-!
# Verification of the tinynet TCP layer

Shallow embedding of `pkg/tinynet` (address resolution, socket-address
codec, listener and connection lifecycle) and proofs of the spec's claims
about it.  The raw-socket primitive provider (the external `unisockets`
package) is modelled by explicit response functions passed to each
operation; its byte-order helper and constants are modelled from the spec.

Conventions: Go byte/uint16/uint32 values are `Nat` with explicit `% 2^w`
where a Go conversion truncates; Go `int` is `Int`; a Go runtime panic
(out-of-range slice index) is a distinguished `panicked` outcome; a Go
`nil` pointer is `Option.none`.
-/

namespace TinyNet

/-- Go `strings.Split` with a one-character separator, on char lists:
splits at every occurrence of `sep`; the result is never empty, and an
empty input yields `[[]]` (Go: `strings.Split("", sep) == [""]`). -/
def splitChar (sep : Char) : List Char → List (List Char)
  | [] => [[]]
  | c :: rest =>
    let r := splitChar sep rest
    if c = sep then [] :: r
    else
      match r with
      | [] => [[c]]
      | h :: t => (c :: h) :: t

/-- Accumulate the value of a decimal digit string (helper for `atoiL`). -/
def digitsToNat (cs : List Char) : Nat :=
  cs.foldl (fun a c => a * 10 + (c.toNat - 48)) 0

/-- Go `strconv.Atoi` on a char list: an optional sign followed by at
least one decimal digit, rejected when empty, when any non-digit appears,
or when the value leaves the 64-bit `int` range (Go returns `ErrRange`
there, which `ResolveTCPAddr` treats the same as a syntax error). -/
def atoiL (cs : List Char) : Option Int :=
  let sd : Int × List Char :=
    match cs with
    | '+' :: rest => (1, rest)
    | '-' :: rest => (-1, rest)
    | rest => (1, rest)
  if sd.2.isEmpty then none
  else if sd.2.all Char.isDigit then
    let v : Int := sd.1 * Int.ofNat (digitsToNat sd.2)
    if v < -(2 ^ 63) ∨ 2 ^ 63 - 1 < v then none else some v
  else none

/-- `tinynet.TCPAddr`: the structured address.  `IP` is the 4-byte IPv4
payload (each entry a Go `byte`), `Port` a Go `int`. -/
structure TCPAddr where
  stringAddr : String
  IP : List Nat
  Port : Int
  Zone : String
deriving DecidableEq, Repr

/-- Outcome of the IP-filling loop in `ResolveTCPAddr` (`ip[i] = byte(v)`
over the dotted segments of the host part).  `err` is Go's
`errors.New("could not parse IP")` return; `panicked` is the runtime
index-out-of-range panic on `ip[i]` with `i ≥ 4`. -/
inductive FillRes
  | ok (ip : List Nat)
  | err
  | panicked
deriving DecidableEq, Repr

/-- The `for i, part := range strings.Split(parts[0], ".")` loop of
`ResolveTCPAddr`: parse each segment with `Atoi`; on success store
`byte(v)` (the value mod 256) at index `i` of the 4-byte array, panicking
when `i` is out of range (the array was `make([]byte, 4)`). -/
def fillIP (ip : List Nat) (i : Nat) : List (List Char) → FillRes
  | [] => .ok ip
  | p :: rest =>
    match atoiL p with
    | none => .err
    | some v =>
      if 4 ≤ i then .panicked
      else fillIP (ip.set i (v.emod 256).toNat) (i + 1) rest

/-- Outcome of `ResolveTCPAddr`: a structured address, one of the two
parse errors, or a runtime panic (missing colon with numeric host, or
more than four parseable octets). -/
inductive ResolveResult
  | ok (addr : TCPAddr)
  | parseError (msg : String)
  | panicked
deriving DecidableEq, Repr

/-- `parts := strings.Split(address, ":")` in `ResolveTCPAddr`. -/
def addrParts (address : String) : List (List Char) :=
  splitChar ':' address.toList

/-- `strings.Split(parts[0], ".")` in `ResolveTCPAddr`: the dotted
segments of the host part (`parts` is never empty, so `headD` is exact). -/
def hostOcts (address : String) : List (List Char) :=
  splitChar '.' ((addrParts address).headD [])

/-- `tinynet.ResolveTCPAddr`: split `address` on `:`; fill the 4 IP bytes
from the dotted segments of the host part; read the port with `Atoi`
from the second part (`parts[1]`, a panic when absent). -/
def ResolveTCPAddr (network address : String) : ResolveResult :=
  match fillIP [0, 0, 0, 0] 0 (hostOcts address) with
  | .err => .parseError "could not parse IP"
  | .panicked => .panicked
  | .ok ip =>
    match (addrParts address)[1]? with
    | none => .panicked
    | some portPart =>
      match atoiL portPart with
      | none => .parseError "could not parse port"
      | some port => .ok ⟨address, ip, port, ""⟩

/-- Go `uint16(n)` conversion on an `int`: the value mod 2^16. -/
def goUint16 (v : Int) : Nat := (v.emod 65536).toNat

/-- Modelled from the spec: the primitive provider's byte-order helper
`hostToNetworkShort` (`unisockets.Htons`), converting a 16-bit value from
(little-endian) host order to network order by swapping its two bytes. -/
def Htons (x : Nat) : Nat := x % 256 * 256 + x / 256 % 256

/-- Go `binary.LittleEndian.Uint32` on the 4-byte IP payload. -/
def leUint32 (b : List Nat) : Nat :=
  b.getD 0 0 + b.getD 1 0 * 256 + b.getD 2 0 * 65536 + b.getD 3 0 * 16777216

/-- Modelled from the spec: the provider's address-family constant for
IPv4 (`unisockets.PF_INET`); only its identity matters here. -/
def PF_INET : Nat := 2

/-- Modelled from the spec: the provider's stream-socket type constant
(`unisockets.SOCK_STREAM`). -/
def SOCK_STREAM : Nat := 1

/-- `unisockets.SockaddrIn`, the binary socket address: family tag,
16-bit port field, 32-bit address word (`SinAddr.SAddr`). -/
structure SockaddrIn where
  SinFamily : Nat
  SinPort : Nat
  SAddr : Nat
deriving DecidableEq, Repr

/-- The binary-address construction inlined in `ListenTCP` and `DialTCP`:
family `PF_INET`, port `Htons(uint16(Port))`, address word
`binary.LittleEndian.Uint32(IP)`. -/
def encodeSockaddr (a : TCPAddr) : SockaddrIn :=
  ⟨PF_INET, Htons (goUint16 a.Port), leUint32 a.IP⟩

/-- The peer-address reconstruction inlined in `AcceptTCP`: the 4 IP
bytes are `byte(SAddr >> 8k)` for `k = 0..3`, the port is `int(SinPort)`
with no byte swap, and the string and zone fields are empty. -/
def decodeSockaddr (s : SockaddrIn) : TCPAddr :=
  ⟨"", [s.SAddr % 256, s.SAddr / 256 % 256, s.SAddr / 65536 % 256,
        s.SAddr / 16777216 % 256], Int.ofNat s.SinPort, ""⟩

/-- Error outcome of the lifecycle operations: an address-parse error, a
propagated primitive-provider (socket) error, or a runtime panic
propagated out of `ResolveTCPAddr`. -/
inductive NetError
  | parse (msg : String)
  | socket (msg : String)
  | panicked
deriving DecidableEq, Repr

/-- `tinynet.TCPListener`: the bound-and-listening socket handle and the
local address it was bound to. -/
structure TCPListener where
  fd : Int
  addr : TCPAddr
deriving DecidableEq, Repr

/-- `tinynet.ListenTCP`, with the provider's `Socket`, `Bind` and
`Listen` capabilities passed as response functions: build the binary
server address, create a stream socket, bind it to that address, and mark
it listening with backlog 5; any provider failure propagates and aborts
construction. -/
def ListenTCP (socketRes : Except String Int)
    (bindRes : Int → SockaddrIn → Option String)
    (listenRes : Int → Nat → Option String)
    (laddr : TCPAddr) : Except NetError TCPListener :=
  match socketRes with
  | .error e => .error (.socket e)
  | .ok serverSocket =>
    match bindRes serverSocket (encodeSockaddr laddr) with
    | some e => .error (.socket e)
    | none =>
      match listenRes serverSocket 5 with
      | some e => .error (.socket e)
      | none => .ok ⟨serverSocket, laddr⟩

/-- `tinynet.Listen`: resolve the address, then delegate to `ListenTCP`;
a resolution failure propagates without touching the provider. -/
def Listen (socketRes : Except String Int)
    (bindRes : Int → SockaddrIn → Option String)
    (listenRes : Int → Nat → Option String)
    (network address : String) : Except NetError TCPListener :=
  match ResolveTCPAddr network address with
  | .parseError m => .error (.parse m)
  | .panicked => .error .panicked
  | .ok laddr => ListenTCP socketRes bindRes listenRes laddr

/-- `tinynet.TCPConn`: the connected socket handle plus the local and
remote `net.Addr` fields (nilable pointers, hence `Option`). -/
structure TCPConn where
  fd : Int
  laddr : Option TCPAddr
  raddr : Option TCPAddr
deriving DecidableEq, Repr

/-- `TCPListener.AcceptTCP`, with the provider's `Accept` capability as a
response function returning the new handle and the filled-in peer
`SockaddrIn`: on success the connection carries the listener's own
address (copied field by field, with empty string form) as local address
and the decoded peer address as remote address. -/
def TCPListener.AcceptTCP (acceptRes : Int → Except String (Int × SockaddrIn))
    (l : TCPListener) : Except NetError TCPConn :=
  match acceptRes l.fd with
  | .error e => .error (.socket e)
  | .ok (clientSocket, clientAddress) =>
    .ok ⟨clientSocket,
         some ⟨"", l.addr.IP, l.addr.Port, ""⟩,
         some (decodeSockaddr clientAddress)⟩

/-- `tinynet.DialTCP`, with the provider's `Socket` and `Connect`
capabilities as response functions: build the binary remote address,
create a stream socket, connect it; on success the connection stores the
given `laddr` (a nilable pointer) and `raddr`. -/
def DialTCP (socketRes : Except String Int)
    (connectRes : Int → SockaddrIn → Option String)
    (laddr : Option TCPAddr) (raddr : TCPAddr) : Except NetError TCPConn :=
  match socketRes with
  | .error e => .error (.socket e)
  | .ok serverSocket =>
    match connectRes serverSocket (encodeSockaddr raddr) with
    | some e => .error (.socket e)
    | none => .ok ⟨serverSocket, laddr, some raddr⟩

/-- `tinynet.Dial`: resolve the address, then delegate to `DialTCP` with
a nil local address (the source's `// TODO: Set laddr here`). -/
def Dial (socketRes : Except String Int)
    (connectRes : Int → SockaddrIn → Option String)
    (network address : String) : Except NetError TCPConn :=
  match ResolveTCPAddr network address with
  | .parseError m => .error (.parse m)
  | .panicked => .error .panicked
  | .ok raddr => DialTCP socketRes connectRes none raddr

/-- Error component of `Read`/`Write`: the fresh
`errors.New("client disconnected")` value, or the provider's own error
value passed through. -/
inductive RWError
  | disconnected
  | provider (msg : String)
deriving DecidableEq, Repr

/-- Go `copy(dst, src)`: overwrite the first `min |dst| |src|` entries of
`dst` with those of `src`, keeping the rest of `dst`. -/
def goCopy (dst src : List Nat) : List Nat :=
  src.take dst.length ++ dst.drop src.length

/-- `TCPConn.Read`, with the provider's `Recv` capability as a response
function taking the handle, the zeroed scratch buffer `readMsg` and the
requested length, and returning the reported count, the scratch buffer's
contents after the call, and the provider's error.  A zero count returns
the disconnection error before any copy; otherwise the scratch buffer is
copied into the caller's buffer and the provider's count and error are
returned.  Result: (returned count, returned error, caller's buffer
after the call). -/
def TCPConn.Read (recv : Int → List Nat → Nat → Nat × List Nat × Option String)
    (c : TCPConn) (b : List Nat) : Int × Option RWError × List Nat :=
  match recv c.fd (List.replicate b.length 0) b.length with
  | (n, readMsg2, err) =>
    if n = 0 then (Int.ofNat n, some .disconnected, b)
    else (Int.ofNat n, err.map RWError.provider, goCopy b readMsg2)

/-- `TCPConn.Write`, with the provider's `Send` capability as a response
function: forward the buffer with flags 0; a zero count returns the
disconnection error, otherwise the provider's count and error are
returned. -/
def TCPConn.Write (send : Int → List Nat → Nat → Nat × Option String)
    (c : TCPConn) (b : List Nat) : Int × Option RWError :=
  match send c.fd b 0 with
  | (n, err) =>
    if n = 0 then (Int.ofNat n, some .disconnected)
    else (Int.ofNat n, err.map RWError.provider)

/-- `TCPConn.LocalAddr`: returns the stored `laddr` field. -/
def TCPConn.LocalAddr (c : TCPConn) : Option TCPAddr := c.laddr

/-- `TCPConn.RemoteAddr`: as written in the source, returns the stored
`laddr` field (not `raddr`). -/
def TCPConn.RemoteAddr (c : TCPConn) : Option TCPAddr := c.laddr

/-- If one of the first `4 - i` remaining dotted segments fails `Atoi`,
the IP-filling loop returns the parse-error outcome. -/
theorem fillIP_err (octs : List (List Char)) : ∀ (i : Nat) (ip : List Nat),
    ((octs.take (4 - i)).any fun p => (atoiL p).isNone) = true →
    fillIP ip i octs = FillRes.err := by
  induction octs with
  | nil =>
    intro i ip h
    simp at h
  | cons p rest ih =>
    intro i ip h
    by_cases hi : 4 ≤ i
    · rw [Nat.sub_eq_zero_of_le hi] at h
      simp at h
    · rw [show 4 - i = 4 - (i + 1) + 1 by omega, List.take_succ_cons,
        List.any_cons] at h
      cases hato : atoiL p with
      | none => simp [fillIP, hato]
      | some v =>
        rw [hato] at h
        simp only [Option.isNone_some, Bool.false_or] at h
        simp only [fillIP, hato, if_neg hi]
        exact ih (i + 1) (ip.set i (v.emod 256).toNat) h

/-- If at least `5 - i` segments remain and the first `5 - i` of them all
parse, the IP-filling loop reaches index 4 and panics. -/
theorem fillIP_panicked (octs : List (List Char)) : ∀ (i : Nat) (ip : List Nat),
    i ≤ 4 →
    ((octs.take (5 - i)).all fun p => (atoiL p).isSome) = true →
    5 - i ≤ octs.length →
    fillIP ip i octs = FillRes.panicked := by
  induction octs with
  | nil =>
    intro i ip hi _ hlen
    simp at hlen
    omega
  | cons p rest ih =>
    intro i ip hi hall hlen
    rw [show 5 - i = 5 - (i + 1) + 1 by omega, List.take_succ_cons,
      List.all_cons, Bool.and_eq_true] at hall
    obtain ⟨hp, hrest⟩ := hall
    cases hato : atoiL p with
    | none => rw [hato] at hp; simp at hp
    | some v =>
      by_cases hi4 : 4 ≤ i
      · simp [fillIP, hato, hi4]
      · simp only [fillIP, hato, if_neg hi4]
        refine ih (i + 1) _ (by omega) hrest ?_
        simp only [List.length_cons] at hlen
        omega

/-- If all segments parse and at most `4 - i` of them remain, the
IP-filling loop completes without error. -/
theorem fillIP_ok (octs : List (List Char)) : ∀ (i : Nat) (ip : List Nat),
    (octs.all fun p => (atoiL p).isSome) = true →
    i + octs.length ≤ 4 →
    ∃ ip2, fillIP ip i octs = FillRes.ok ip2 := by
  induction octs with
  | nil => intro i ip _ _; exact ⟨ip, rfl⟩
  | cons p rest ih =>
    intro i ip hall hlen
    rw [List.all_cons, Bool.and_eq_true] at hall
    obtain ⟨hp, hrest⟩ := hall
    simp only [List.length_cons] at hlen
    cases hato : atoiL p with
    | none => rw [hato] at hp; simp at hp
    | some v =>
      have hi : ¬ 4 ≤ i := by omega
      simp only [fillIP, hato, if_neg hi]
      exact ih (i + 1) _ hrest (by omega)

/-- The IP-filling loop preserves the 4-byte shape: starting from a
length-4 array of bytes, a successful run yields a length-4 array of
bytes (each entry below 256). -/
theorem fillIP_ok_bytes (octs : List (List Char)) :
    ∀ (i : Nat) (ip ip2 : List Nat),
    ip.length = 4 → (∀ x ∈ ip, x < 256) →
    fillIP ip i octs = FillRes.ok ip2 →
    ip2.length = 4 ∧ ∀ x ∈ ip2, x < 256 := by
  induction octs with
  | nil =>
    intro i ip ip2 hlen hb h
    simp only [fillIP, FillRes.ok.injEq] at h
    subst h
    exact ⟨hlen, hb⟩
  | cons p rest ih =>
    intro i ip ip2 hlen hb h
    cases hato : atoiL p with
    | none => simp [fillIP, hato] at h
    | some v =>
      by_cases hi : 4 ≤ i
      · simp [fillIP, hato, hi] at h
      · simp only [fillIP, hato, if_neg hi] at h
        refine ih (i + 1) _ ip2 ?_ ?_ h
        · rw [List.length_set, hlen]
        · intro x hx
          rcases List.mem_or_eq_of_mem_set hx with hx2 | hx2
          · exact hb x hx2
          · have h1 : (0 : Int) ≤ v.emod 256 := Int.emod_nonneg v (by norm_num)
            have h2 : v.emod 256 < 256 := Int.emod_lt_of_pos v (by norm_num)
            omega

/-- A successful resolve always produces a 4-entry IP list of bytes. -/
theorem resolve_ok_ip (network address : String) (a : TCPAddr)
    (h : ResolveTCPAddr network address = .ok a) :
    a.IP.length = 4 ∧ ∀ x ∈ a.IP, x < 256 := by
  unfold ResolveTCPAddr at h
  split at h
  · simp at h
  · simp at h
  · rename_i ip hfill
    split at h
    · simp at h
    · split at h
      · simp at h
      · simp only [ResolveResult.ok.injEq] at h
        subst h
        refine fillIP_ok_bytes _ 0 [0, 0, 0, 0] ip rfl ?_ hfill
        intro x hx
        simp at hx
        omega

/-- C8: `resolve("127.0.0.1:1234")` succeeds and yields the structured
address with IP bytes `[127, 0, 0, 1]` and port `1234`. -/
theorem resolve_localhost_1234 :
    ResolveTCPAddr "tcp" "127.0.0.1:1234" =
      ResolveResult.ok ⟨"127.0.0.1:1234", [127, 0, 0, 1], 1234, ""⟩ := by
  decide

/-- C1 counterexample: at the valid address `"127.0.0.1:1234"`, decoding
the encoding of the resolved address yields port 53764 (the byte swap of
1234), not 1234, so the codec round trip is not lossless in the port. -/
theorem codec_roundtrip_counterexample :
    ResolveTCPAddr "tcp" "127.0.0.1:1234" =
      ResolveResult.ok ⟨"127.0.0.1:1234", [127, 0, 0, 1], 1234, ""⟩ ∧
    (decodeSockaddr (encodeSockaddr
      ⟨"127.0.0.1:1234", [127, 0, 0, 1], 1234, ""⟩)).IP = [127, 0, 0, 1] ∧
    (decodeSockaddr (encodeSockaddr
      ⟨"127.0.0.1:1234", [127, 0, 0, 1], 1234, ""⟩)).Port = 53764 ∧
    (decodeSockaddr (encodeSockaddr
      ⟨"127.0.0.1:1234", [127, 0, 0, 1], 1234, ""⟩)).Port ≠ (1234 : Int) := by
  decide

/-- A list of length 4 is a literal 4-element list. -/
theorem list_len_four {α : Type} {l : List α} (h : l.length = 4) :
    ∃ b0 b1 b2 b3, l = [b0, b1, b2, b3] := by
  cases l with
  | nil => simp at h
  | cons b0 t0 =>
    cases t0 with
    | nil => simp at h
    | cons b1 t1 =>
      cases t1 with
      | nil => simp at h
      | cons b2 t2 =>
        cases t2 with
        | nil => simp at h
        | cons b3 t3 =>
          cases t3 with
          | nil => exact ⟨b0, b1, b2, b3, rfl⟩
          | cons b4 t4 => simp at h

/-- C1 (amended): for every address resolved successfully whose port lies
in 0..65535, decoding the encoding of the resolved address reproduces the
4 IP bytes exactly, while the decoded port is the byte swap (`Htons`) of
the original port — so the round trip is lossless on the IP bytes but
swaps the two port bytes. -/
theorem codec_roundtrip_amended (s : String) (a : TCPAddr)
    (h : ResolveTCPAddr "tcp" s = ResolveResult.ok a)
    (h0 : 0 ≤ a.Port) (h1 : a.Port < 65536) :
    (decodeSockaddr (encodeSockaddr a)).IP = a.IP ∧
    (decodeSockaddr (encodeSockaddr a)).Port = Int.ofNat (Htons a.Port.toNat) := by
  obtain ⟨hlen, hb⟩ := resolve_ok_ip "tcp" s a h
  obtain ⟨b0, b1, b2, b3, hip⟩ := list_len_four hlen
  have hb0 : b0 < 256 := hb b0 (by rw [hip]; simp)
  have hb1 : b1 < 256 := hb b1 (by rw [hip]; simp)
  have hb2 : b2 < 256 := hb b2 (by rw [hip]; simp)
  have hb3 : b3 < 256 := hb b3 (by rw [hip]; simp)
  have hmod : a.Port.emod 65536 = a.Port := Int.emod_eq_of_lt h0 h1
  constructor
  · rw [hip]
    simp [decodeSockaddr, encodeSockaddr, leUint32, hip]
    omega
  · simp only [decodeSockaddr, encodeSockaddr, goUint16, hmod]

/-- C1 amended, instantiated at `"10.0.0.255:4660"`: the IP bytes survive
the round trip. -/
theorem codec_roundtrip_amended_witness :
    (decodeSockaddr (encodeSockaddr
      ⟨"10.0.0.255:4660", [10, 0, 0, 255], 4660, ""⟩)).IP = [10, 0, 0, 255] :=
  (codec_roundtrip_amended "10.0.0.255:4660"
    ⟨"10.0.0.255:4660", [10, 0, 0, 255], 4660, ""⟩
    (by decide) (by decide) (by decide)).1

/-- C2 counterexample: `"1.2.3:80"` has only three dotted octets, yet
`ResolveTCPAddr` succeeds (zero-filling the fourth byte) instead of
returning a parse error; and `"9.9.9.9"`, which lacks the colon, causes an
index-out-of-range panic instead of a parse error. -/
theorem resolve_malformed_counterexample :
    ResolveTCPAddr "tcp" "1.2.3:80" =
      ResolveResult.ok ⟨"1.2.3:80", [1, 2, 3, 0], 80, ""⟩ ∧
    ResolveTCPAddr "tcp" "9.9.9.9" = ResolveResult.panicked := by
  decide

/-- C2 (amended): `ResolveTCPAddr` returns the IP parse error when one of
the first four dotted octets is non-numeric, and the port parse error
when the octets are at most four and all numeric but the port segment
after the colon is non-numeric (no partial address is produced in either
case); by contrast, five or more parseable octets, or a missing colon
after parseable octets, end in an index-out-of-range panic rather than a
parse error. -/
theorem resolve_error_cases (network address : String) :
    ((((hostOcts address).take 4).any fun p => (atoiL p).isNone) = true →
      ResolveTCPAddr network address =
        ResolveResult.parseError "could not parse IP") ∧
    ((((hostOcts address).take 5).all fun p => (atoiL p).isSome) = true →
      5 ≤ (hostOcts address).length →
      ResolveTCPAddr network address = ResolveResult.panicked) ∧
    (((hostOcts address).all fun p => (atoiL p).isSome) = true →
      (hostOcts address).length ≤ 4 →
      (addrParts address).length = 1 →
      ResolveTCPAddr network address = ResolveResult.panicked) ∧
    (∀ portPart : List Char,
      ((hostOcts address).all fun p => (atoiL p).isSome) = true →
      (hostOcts address).length ≤ 4 →
      (addrParts address)[1]? = some portPart →
      atoiL portPart = none →
      ResolveTCPAddr network address =
        ResolveResult.parseError "could not parse port") := by
  refine ⟨?_, ?_, ?_, ?_⟩
  · intro h
    simp [ResolveTCPAddr,
      fillIP_err (hostOcts address) 0 [0, 0, 0, 0] h]
  · intro hall hlen
    simp [ResolveTCPAddr,
      fillIP_panicked (hostOcts address) 0 [0, 0, 0, 0]
        (by omega) hall (by omega)]
  · intro hall hlen hparts
    obtain ⟨ip2, hip2⟩ :=
      fillIP_ok (hostOcts address) 0 [0, 0, 0, 0] hall (by omega)
    have hget : (addrParts address)[1]? = none := by
      exact List.getElem?_eq_none (by omega)
    simp [ResolveTCPAddr, hip2, hget]
  · intro portPart hall hlen hget hato
    obtain ⟨ip2, hip2⟩ :=
      fillIP_ok (hostOcts address) 0 [0, 0, 0, 0] hall (by omega)
    simp [ResolveTCPAddr, hip2, hget, hato]

/-- C2 amended, instantiated: a non-numeric octet and a non-numeric port
each yield the corresponding parse error. -/
theorem resolve_error_cases_witness :
    ResolveTCPAddr "tcp" "1.x.3.4:80" =
      ResolveResult.parseError "could not parse IP" ∧
    ResolveTCPAddr "tcp" "1.2.3.4:8x" =
      ResolveResult.parseError "could not parse port" :=
  ⟨(resolve_error_cases "tcp" "1.x.3.4:80").1 (by decide),
   (resolve_error_cases "tcp" "1.2.3.4:8x").2.2.2 "8x".toList
     (by decide) (by decide) (by decide) (by decide)⟩

/-- C10: any port segment accepted by `Atoi` — negative or above 65535
included — is accepted by `ResolveTCPAddr` and stored unreduced in the
`Port` field; the port only collapses modulo 2^16 through the `uint16`
conversion inside the binary encoding used by listen/dial. -/
theorem resolve_port_unchecked (network address : String)
    (hostPart portPart : List Char) (v : Int) (ip : List Nat)
    (hsplit : addrParts address = [hostPart, portPart])
    (hfill : fillIP [0, 0, 0, 0] 0 (splitChar '.' hostPart) =
      FillRes.ok ip)
    (hato : atoiL portPart = some v) :
    ResolveTCPAddr network address = ResolveResult.ok ⟨address, ip, v, ""⟩ ∧
    (encodeSockaddr ⟨address, ip, v, ""⟩).SinPort =
      Htons (v.emod 65536).toNat ∧
    ∀ w : Int, v.emod 65536 = w.emod 65536 →
      encodeSockaddr ⟨address, ip, v, ""⟩ =
        encodeSockaddr ⟨address, ip, w, ""⟩ := by
  refine ⟨?_, rfl, ?_⟩
  · have hocts : hostOcts address = splitChar '.' hostPart := by
      unfold hostOcts
      rw [hsplit]
      rfl
    have hget : (addrParts address)[1]? = some portPart := by
      rw [hsplit]
      rfl
    simp [ResolveTCPAddr, hocts, hfill, hget, hato]
  · intro w hw
    simp [encodeSockaddr, goUint16, hw]

/-- C10, instantiated at `"1.2.3.4:70000"`: the out-of-range port 70000
is stored as-is. -/
theorem resolve_port_unchecked_witness :
    ResolveTCPAddr "tcp" "1.2.3.4:70000" =
      ResolveResult.ok ⟨"1.2.3.4:70000", [1, 2, 3, 4], 70000, ""⟩ :=
  (resolve_port_unchecked "tcp" "1.2.3.4:70000" "1.2.3.4".toList
    "70000".toList 70000 [1, 2, 3, 4] (by decide) (by decide) (by decide)).1

/-- C7: the binary encoding of a structured address carries the
stream-socket family constant, the port converted to big-endian (network)
16-bit byte order, and the 4 IP bytes packed as a little-endian 32-bit
integer; `encodeSockaddr` is a total function, hence deterministic with
no failure mode. -/
theorem encode_fields (a : TCPAddr) (b0 b1 b2 b3 : Nat)
    (hip : a.IP = [b0, b1, b2, b3]) (h0 : 0 ≤ a.Port) (h1 : a.Port < 65536) :
    (encodeSockaddr a).SinFamily = PF_INET ∧
    (encodeSockaddr a).SinPort =
      a.Port.toNat % 256 * 256 + a.Port.toNat / 256 ∧
    (encodeSockaddr a).SAddr = b0 + b1 * 256 + b2 * 65536 + b3 * 16777216 := by
  have hmod : a.Port.emod 65536 = a.Port := Int.emod_eq_of_lt h0 h1
  refine ⟨rfl, ?_, ?_⟩
  · simp only [encodeSockaddr, Htons, goUint16, hmod]
    omega
  · simp [encodeSockaddr, leUint32, hip]

/-- C7, instantiated at `192.168.1.2:80`. -/
theorem encode_fields_witness :
    (encodeSockaddr ⟨"192.168.1.2:80", [192, 168, 1, 2], 80, ""⟩).SinFamily =
      PF_INET ∧
    (encodeSockaddr ⟨"192.168.1.2:80", [192, 168, 1, 2], 80, ""⟩).SAddr =
      192 + 168 * 256 + 1 * 65536 + 2 * 16777216 :=
  ⟨(encode_fields ⟨"192.168.1.2:80", [192, 168, 1, 2], 80, ""⟩ 192 168 1 2
      rfl (by decide) (by decide)).1,
   (encode_fields ⟨"192.168.1.2:80", [192, 168, 1, 2], 80, ""⟩ 192 168 1 2
      rfl (by decide) (by decide)).2.2⟩

/-- C5: `Listen` resolves first, so a parse failure propagates with no
provider call; `ListenTCP` consults the provider's bind only at the
encoded local address and its listen only at backlog 5; a provider
failure at the create, bind or listen step propagates that error with no
listener; when all three steps succeed the listener wraps the created
handle and the resolved address. -/
theorem listen_steps_and_errors (sock : Except String Int)
    (bind bind2 : Int → SockaddrIn → Option String)
    (lstn lstn2 : Int → Nat → Option String)
    (network address m e : String) (laddr : TCPAddr) (fd : Int) :
    (ResolveTCPAddr network address = ResolveResult.parseError m →
      Listen sock bind lstn network address =
        Except.error (NetError.parse m)) ∧
    (sock = Except.error e →
      ListenTCP sock bind lstn laddr = Except.error (NetError.socket e)) ∧
    (sock = Except.ok fd → bind fd (encodeSockaddr laddr) = some e →
      ListenTCP sock bind lstn laddr = Except.error (NetError.socket e)) ∧
    (sock = Except.ok fd → bind fd (encodeSockaddr laddr) = none →
      lstn fd 5 = some e →
      ListenTCP sock bind lstn laddr = Except.error (NetError.socket e)) ∧
    (sock = Except.ok fd → bind fd (encodeSockaddr laddr) = none →
      lstn fd 5 = none →
      ListenTCP sock bind lstn laddr = Except.ok ⟨fd, laddr⟩) ∧
    ((∀ g : Int,
        bind g (encodeSockaddr laddr) = bind2 g (encodeSockaddr laddr)) →
      (∀ g : Int, lstn g 5 = lstn2 g 5) →
      ListenTCP sock bind lstn laddr = ListenTCP sock bind2 lstn2 laddr) := by
  refine ⟨?_, ?_, ?_, ?_, ?_, ?_⟩
  · intro h
    simp [Listen, h]
  · intro h
    subst h
    rfl
  · intro hs hb
    subst hs
    simp [ListenTCP, hb]
  · intro hs hb hl
    subst hs
    simp [ListenTCP, hb, hl]
  · intro hs hb hl
    subst hs
    simp [ListenTCP, hb, hl]
  · intro hb hl
    cases sock with
    | error e2 => rfl
    | ok fd2 => simp only [ListenTCP, hb fd2, hl fd2]

/-- C5, instantiated with an always-succeeding provider. -/
theorem listen_steps_and_errors_witness :
    ListenTCP (Except.ok 3) (fun _ _ => none) (fun _ _ => none)
      ⟨"127.0.0.1:1234", [127, 0, 0, 1], 1234, ""⟩ =
      Except.ok ⟨3, ⟨"127.0.0.1:1234", [127, 0, 0, 1], 1234, ""⟩⟩ :=
  (listen_steps_and_errors (Except.ok 3) (fun _ _ => none) (fun _ _ => none)
    (fun _ _ => none) (fun _ _ => none) "tcp" "127.0.0.1:1234" "m" "e"
    ⟨"127.0.0.1:1234", [127, 0, 0, 1], 1234, ""⟩ 3).2.2.2.2.1 rfl rfl rfl

/-- C6: `Dial` resolves first, so a parse failure propagates with no
provider call; `DialTCP` consults the provider's connect only at the
encoded remote address; a provider failure at the create or connect step
propagates that error with no connection; on success the connection has
its local address unset (`none`) and its remote address equal to the
resolved address. -/
theorem dial_steps_and_errors (sock : Except String Int)
    (conn conn2 : Int → SockaddrIn → Option String)
    (network address m e : String) (raddr : TCPAddr) (fd : Int) :
    (ResolveTCPAddr network address = ResolveResult.parseError m →
      Dial sock conn network address = Except.error (NetError.parse m)) ∧
    (sock = Except.error e →
      DialTCP sock conn none raddr = Except.error (NetError.socket e)) ∧
    (sock = Except.ok fd → conn fd (encodeSockaddr raddr) = some e →
      DialTCP sock conn none raddr = Except.error (NetError.socket e)) ∧
    (ResolveTCPAddr network address = ResolveResult.ok raddr →
      sock = Except.ok fd → conn fd (encodeSockaddr raddr) = none →
      Dial sock conn network address = Except.ok ⟨fd, none, some raddr⟩) ∧
    ((∀ g : Int,
        conn g (encodeSockaddr raddr) = conn2 g (encodeSockaddr raddr)) →
      DialTCP sock conn none raddr = DialTCP sock conn2 none raddr) := by
  refine ⟨?_, ?_, ?_, ?_, ?_⟩
  · intro h
    simp [Dial, h]
  · intro h
    subst h
    rfl
  · intro hs hc
    subst hs
    simp [DialTCP, hc]
  · intro hr hs hc
    subst hs
    simp [Dial, hr, DialTCP, hc]
  · intro hc
    cases sock with
    | error e2 => rfl
    | ok fd2 => simp only [DialTCP, hc fd2]

/-- C6, instantiated with an always-succeeding provider: the dialed
connection has no local address and stores the resolved remote address. -/
theorem dial_steps_and_errors_witness :
    Dial (Except.ok 9) (fun _ _ => none) "tcp" "10.1.2.3:4000" =
      Except.ok ⟨9, none, some ⟨"10.1.2.3:4000", [10, 1, 2, 3], 4000, ""⟩⟩ :=
  (dial_steps_and_errors (Except.ok 9) (fun _ _ => none) (fun _ _ => none)
    "tcp" "10.1.2.3:4000" "m" "e" ⟨"10.1.2.3:4000", [10, 1, 2, 3], 4000, ""⟩
    9).2.2.2.1 (by decide) rfl rfl

/-- C3 is violated by the source: `RemoteAddr` returns the stored local
address field (`c.laddr`).  On the connection dialed to
`"127.0.0.1:1234"` the remote field holds the resolved address yet
`RemoteAddr` returns `none` (the nil local address); on an accepted
connection `RemoteAddr` returns the listener-derived local address, not
the decoded peer address that was stored as the remote. -/
theorem remoteAddr_returns_local :
    Dial (Except.ok 3) (fun _ _ => none) "tcp" "127.0.0.1:1234" =
      Except.ok ⟨3, none, some ⟨"127.0.0.1:1234", [127, 0, 0, 1], 1234, ""⟩⟩ ∧
    TCPConn.RemoteAddr
      ⟨3, none, some ⟨"127.0.0.1:1234", [127, 0, 0, 1], 1234, ""⟩⟩ = none ∧
    TCPListener.AcceptTCP (fun _ => Except.ok (7, ⟨2, 53764, 16777343⟩))
      ⟨3, ⟨"127.0.0.1:1234", [127, 0, 0, 1], 1234, ""⟩⟩ =
      Except.ok ⟨7, some ⟨"", [127, 0, 0, 1], 1234, ""⟩,
        some ⟨"", [127, 0, 0, 1], 53764, ""⟩⟩ ∧
    TCPConn.RemoteAddr ⟨7, some ⟨"", [127, 0, 0, 1], 1234, ""⟩,
        some ⟨"", [127, 0, 0, 1], 53764, ""⟩⟩ =
      some ⟨"", [127, 0, 0, 1], 1234, ""⟩ ∧
    TCPConn.RemoteAddr ⟨7, some ⟨"", [127, 0, 0, 1], 1234, ""⟩,
        some ⟨"", [127, 0, 0, 1], 53764, ""⟩⟩ ≠
      some ⟨"", [127, 0, 0, 1], 53764, ""⟩ :=
  ⟨by rfl, rfl, by rfl, rfl, by decide⟩

/-- C4: `Read` and `Write` return the disconnection error exactly when
the provider reports a zero byte count, whatever error status the
provider returned alongside it; on a nonzero count the provider's count
and its own error value are handed back to the caller. -/
theorem read_write_disconnect_iff_zero (c : TCPConn)
    (recv : Int → List Nat → Nat → Nat × List Nat × Option String)
    (send : Int → List Nat → Nat → Nat × Option String)
    (b buf : List Nat) (n msend : Nat) (er er2 : Option String)
    (hr : recv c.fd (List.replicate b.length 0) b.length = (n, buf, er))
    (hs : send c.fd b 0 = (msend, er2)) :
    ((TCPConn.Read recv c b).2.1 = some RWError.disconnected ↔ n = 0) ∧
    (n ≠ 0 → (TCPConn.Read recv c b).1 = Int.ofNat n ∧
      (TCPConn.Read recv c b).2.1 = er.map RWError.provider) ∧
    ((TCPConn.Write send c b).2 = some RWError.disconnected ↔ msend = 0) ∧
    (msend ≠ 0 → (TCPConn.Write send c b).1 = Int.ofNat msend ∧
      (TCPConn.Write send c b).2 = er2.map RWError.provider) := by
  have hmap : ∀ o : Option String,
      (o.map RWError.provider = some RWError.disconnected) = False := by
    intro o
    cases o <;> simp
  refine ⟨?_, ?_, ?_, ?_⟩
  · by_cases hn : n = 0 <;> simp [TCPConn.Read, hr, hn, hmap]
  · intro hn
    simp [TCPConn.Read, hr, hn]
  · by_cases hm : msend = 0 <;> simp [TCPConn.Write, hs, hm, hmap]
  · intro hm
    simp [TCPConn.Write, hs, hm]

/-- C4, instantiated: a zero-byte receive with a provider-level error
still comes back as the disconnection error. -/
theorem read_write_disconnect_iff_zero_witness :
    (TCPConn.Read (fun _ _ _ => (0, [7, 7], some "io failure"))
      ⟨5, none, none⟩ [1, 2]).2.1 = some RWError.disconnected :=
  ((read_write_disconnect_iff_zero ⟨5, none, none⟩
    (fun _ _ _ => (0, [7, 7], some "io failure")) (fun _ _ _ => (2, none))
    [1, 2] [7, 7] 0 2 (some "io failure") none rfl rfl).1).mpr rfl

/-- C9: when the provider reports zero bytes, `Read` returns before the
copy and the caller's buffer comes back unchanged; only on a nonzero
count are the scratch-buffer contents copied over the caller's buffer. -/
theorem read_buffer_untouched_on_disconnect (c : TCPConn)
    (recv : Int → List Nat → Nat → Nat × List Nat × Option String)
    (b buf : List Nat) (n : Nat) (er : Option String)
    (hr : recv c.fd (List.replicate b.length 0) b.length = (n, buf, er)) :
    (n = 0 → (TCPConn.Read recv c b).2.2 = b) ∧
    (n ≠ 0 → (TCPConn.Read recv c b).2.2 =
      buf.take b.length ++ b.drop buf.length) := by
  constructor
  · intro hn
    simp [TCPConn.Read, hr, hn]
  · intro hn
    simp [TCPConn.Read, goCopy, hr, hn]

/-- C9, instantiated: a zero-byte receive leaves the buffer `[5, 6, 7]`
untouched even though the scratch buffer held other bytes. -/
theorem read_buffer_untouched_on_disconnect_witness :
    (TCPConn.Read (fun _ _ _ => (0, [9, 9, 9], none)) ⟨4, none, none⟩
      [5, 6, 7]).2.2 = [5, 6, 7] :=
  (read_buffer_untouched_on_disconnect ⟨4, none, none⟩
    (fun _ _ _ => (0, [9, 9, 9], none)) [5, 6, 7] [9, 9, 9] 0 none rfl).1 rfl

end TinyNet
